import Mathlib

/-!
Verification development for the `operating_engine` repository: a shallow
embedding of the resumable pseudo-code interpreter (parser, execution
context, context store, operation handlers, execution engine, HTTP-level
endpoint dispatcher) together with theorems settling the frozen claims
about it.

Conventions of the embedding:
* Python/JSON values are modelled by `JValue`; Python dicts with string
  keys are insertion-ordered association lists `List (String × JValue)`.
* Machine-level exceptions are modelled with `Except String`; the string
  is `str(e)` of the Python exception.
* File-system persistence (`execution_contexts/<id>.json`) is modelled as
  a map from execution id to the stored JSON document inside
  `EngineState.store`; `json.dump`/`json.load` round-trip JSON documents
  losslessly, so the file content is the document itself.
* `uuid.uuid4()` calls draw from the `fresh` supply inside `EngineState`.
-/

/-- JSON-representable Python values (`None`, `bool`, `int`, `str`, `list`, `dict`). -/
inductive JValue where
  | null : JValue
  | bool : Bool → JValue
  | num : Int → JValue
  | str : String → JValue
  | arr : List JValue → JValue
  | obj : List (String × JValue) → JValue

/-- Embed a `Nat` counter (Python non-negative `int`) as a JSON number. -/
def jnat (n : Nat) : JValue := JValue.num (Int.ofNat n)

/-- Python `d[k]`-style ordered-dict lookup: first entry with the key. -/
def pyDictGet? {α : Type} (d : List (String × α)) (k : String) : Option α :=
  match d with
  | [] => none
  | p :: rest => if p.1 == k then some p.2 else pyDictGet? rest k

/-- Python `k in d` membership test on a dict. -/
def pyDictHas {α : Type} (d : List (String × α)) (k : String) : Bool :=
  match d with
  | [] => false
  | p :: rest => p.1 == k || pyDictHas rest k

/-- Python `d[k] = v` dict assignment: overwrite in place when the key is
present (keeping its position), append otherwise. -/
def pyDictSet {α : Type} (d : List (String × α)) (k : String) (v : α) : List (String × α) :=
  match d with
  | [] => [(k, v)]
  | p :: rest =>
    if p.1 == k then (k, v) :: rest
    else p :: pyDictSet rest k v

/-- Python truthiness of a JSON value (`None`/`False`/`0`/`""`/`[]`/`{}` are falsy). -/
def pyTruthy (v : JValue) : Bool :=
  match v with
  | JValue.null => false
  | JValue.bool b => b
  | JValue.num n => !(n == 0)
  | JValue.str s => !(s == "")
  | JValue.arr xs => !xs.isEmpty
  | JValue.obj kvs => !kvs.isEmpty

/-- `d.get(k)` on a JSON object, Python-style: `None` when the key is absent
or the value is not an object. -/
def jGet (v : JValue) (k : String) : JValue :=
  match v with
  | JValue.obj kvs =>
    match pyDictGet? kvs k with
    | some w => w
    | none => JValue.null
  | _ => JValue.null

/-- Test that a JSON value is a given string (avoids needing a `BEq JValue`). -/
def jIsStr (v : JValue) (s : String) : Bool :=
  match v with
  | JValue.str t => t == s
  | _ => false

/-- The string carried by a JSON value; `""` for non-strings.  Used only where
the source guarantees the value is a string (regex-captured targets). -/
def jStrOf (v : JValue) : String :=
  match v with
  | JValue.str s => s
  | _ => ""

/-- Python `str()` of a JSON value, restricted to the scalar cases this
development exercises (the result only flows into messages that no theorem
inspects for composite values). -/
def pyStr (v : JValue) : String :=
  match v with
  | JValue.null => "None"
  | JValue.bool b => if b then "True" else "False"
  | JValue.num n => toString n
  | JValue.str s => s
  | JValue.arr _ => "[...]"
  | JValue.obj _ => "\x7b...\x7d"

/-- Python `variables.get(key)` where `variables` is a string-keyed dict and
`key` is an arbitrary value: unhashable keys (`list`/`dict`) raise
`TypeError`; hashable non-string keys are simply absent. -/
def pyHashGet (d : List (String × JValue)) (key : JValue) : Except String JValue :=
  match key with
  | JValue.str s =>
    match pyDictGet? d s with
    | some v => Except.ok v
    | none => Except.ok JValue.null
  | JValue.arr _ => Except.error "unhashable type: \x27list\x27"
  | JValue.obj _ => Except.error "unhashable type: \x27dict\x27"
  | _ => Except.ok JValue.null

/-! ## context.py: execution status and Context -/

/-- `ExecutionStatus` enum from context.py. -/
inductive ExecutionStatus where
  | running : ExecutionStatus
  | paused : ExecutionStatus
  | completed : ExecutionStatus
  | error : ExecutionStatus
deriving DecidableEq

/-- `ExecutionStatus.value`: the serialized enum value. -/
def ExecutionStatus.value : ExecutionStatus → String
  | ExecutionStatus.running => "running"
  | ExecutionStatus.paused => "paused"
  | ExecutionStatus.completed => "completed"
  | ExecutionStatus.error => "error"

/-- `ExecutionStatus(raw)` construction: `none` models the `ValueError` raised
on an unknown enum value. -/
def ExecutionStatus.ofValue? (s : String) : Option ExecutionStatus :=
  if s == "running" then some ExecutionStatus.running
  else if s == "paused" then some ExecutionStatus.paused
  else if s == "completed" then some ExecutionStatus.completed
  else if s == "error" then some ExecutionStatus.error
  else none

/-- `Context` from context.py.  `last_operation` is a plain `JValue` with
`null` playing Python's `None`. -/
structure Context where
  execution_id : String
  «variables» : List (String × JValue)
  current_step : Nat
  total_steps : Nat
  status : ExecutionStatus
  error_count : Nat
  execution_history : List JValue
  waiting_for_input : Bool
  last_operation : JValue
  is_done : Bool

/-- `Context.__init__` (the freshly drawn uuid is passed in, see `EngineState.fresh`). -/
def Context.new (execution_id : String) : Context :=
  { execution_id := execution_id
    «variables» := []
    current_step := 0
    total_steps := 0
    status := ExecutionStatus.running
    error_count := 0
    execution_history := []
    waiting_for_input := false
    last_operation := JValue.null
    is_done := false }

/-- `Context.update_variable`. -/
def Context.update_variable (c : Context) (name : String) (value : JValue) : Context :=
  { c with «variables» := pyDictSet c.«variables» name value }

/-- `Context.get_variable`: `self.«variables».get(name)`.  The argument is an
arbitrary value because `Response.execute` passes one through; unhashable
arguments raise `TypeError` exactly as `dict.get` does. -/
def Context.get_variable (c : Context) (name : JValue) : Except String JValue :=
  pyHashGet c.«variables» name

/-- `Context.record_error`: bump the error count, set status to `ERROR` and
append an error entry to the history. -/
def Context.record_error (c : Context) (error : String) : Context :=
  { c with
    error_count := c.error_count + 1
    status := ExecutionStatus.error
    execution_history := c.execution_history ++
      [JValue.obj [("step", jnat c.current_step), ("type", JValue.str "error"),
                   ("message", JValue.str error)]] }

/-- `Context.set_waiting_for_input` (Python default `operation=None` is the
`JValue.null` argument at call sites). -/
def Context.set_waiting_for_input (c : Context) (waiting : Bool) (operation : JValue) : Context :=
  if waiting then
    { c with waiting_for_input := true, status := ExecutionStatus.paused,
             last_operation := operation }
  else
    { c with waiting_for_input := false, status := ExecutionStatus.running,
             last_operation := JValue.null }

/-- `Context.mark_completed`. -/
def Context.mark_completed (c : Context) : Context :=
  { c with status := ExecutionStatus.completed, is_done := true }

/-- `Context.record_step` (present for completeness; the only caller is
`BaseOperation.record_success`, whose attribute access fails first). -/
def Context.record_step (c : Context) (operation_type : String) (result : JValue) : Context :=
  { c with execution_history := c.execution_history ++
      [JValue.obj [("step", jnat c.current_step), ("type", JValue.str operation_type),
                   ("result", result)]] }

/-- `Context.to_dict`: the persisted JSON document. -/
def Context.to_dict (c : Context) : JValue :=
  JValue.obj
    [("execution_id", JValue.str c.execution_id),
     ("variables", JValue.obj c.«variables»),
     ("current_step", jnat c.current_step),
     ("total_steps", jnat c.total_steps),
     ("status", JValue.str c.status.value),
     ("error_count", jnat c.error_count),
     ("execution_history", JValue.arr c.execution_history),
     ("waiting_for_input", JValue.bool c.waiting_for_input),
     ("last_operation", c.last_operation),
     ("is_done", JValue.bool c.is_done)]

/-- Lookup with default used by `Context.from_dict` (`data.get(k, d)`). -/
def jGetD (kvs : List (String × JValue)) (k : String) (d : JValue) : JValue :=
  match pyDictGet? kvs k with
  | some v => v
  | none => d

/-- `Context.from_dict`.  `none` models the cases where the Python original
raises (unknown status value) or builds a context outside this typed model
(a field present with a type the Context never stores — such documents
never arise from `to_dict`; their only consumer, `load_context`, converts
any failure into "not loaded"). -/
def Context.from_dict (data : JValue) : Option Context :=
  match data with
  | JValue.obj kvs =>
    (match jGetD kvs "execution_id" JValue.null with
     | JValue.str eid =>
       (match jGetD kvs "variables" (JValue.obj []) with
        | JValue.obj vars =>
          (match jGetD kvs "current_step" (jnat 0) with
           | JValue.num (Int.ofNat step) =>
             (match jGetD kvs "total_steps" (jnat 0) with
              | JValue.num (Int.ofNat total) =>
                (match jGetD kvs "status" (JValue.str "running") with
                 | JValue.str rawStatus =>
                   (match ExecutionStatus.ofValue? rawStatus with
                    | some st =>
                      (match jGetD kvs "error_count" (jnat 0) with
                       | JValue.num (Int.ofNat ec) =>
                         (match jGetD kvs "execution_history" (JValue.arr []) with
                          | JValue.arr hist =>
                            (match jGetD kvs "waiting_for_input" (JValue.bool false) with
                             | JValue.bool wfi =>
                               (match jGetD kvs "is_done" (JValue.bool false) with
                                | JValue.bool done =>
                                  some
                                    { execution_id := eid
                                      «variables» := vars
                                      current_step := step
                                      total_steps := total
                                      status := st
                                      error_count := ec
                                      execution_history := hist
                                      waiting_for_input := wfi
                                      last_operation := jGetD kvs "last_operation" JValue.null
                                      is_done := done }
                                | _ => none)
                             | _ => none)
                          | _ => none)
                       | _ => none)
                    | none => none)
                 | _ => none)
              | _ => none)
           | _ => none)
        | _ => none)
     | _ => none)
  | _ => none

/-! ## Engine state and the ContextManager -/

/-- The mutable state of the engine process: the durable store (file name →
JSON document), the in-memory `ContextManager.context`, the per-id
`code_cache`, and the supply of identifiers `uuid.uuid4()` will produce. -/
structure EngineState where
  store : List (String × JValue)
  context : Context
  code_cache : List (String × String)
  fresh : List String

/-- Draw the next uuid from the model's supply. -/
def takeFresh (s : EngineState) : String × EngineState :=
  match s.fresh with
  | [] => ("", s)
  | i :: rest => (i, { s with fresh := rest })

/-- `ContextManager.save_context`: serialize the current context into the
store under the given execution id. -/
def save_context (s : EngineState) (execution_id : String) : EngineState :=
  { s with store := pyDictSet s.store execution_id s.context.to_dict }

/-- `ContextManager.load_context`, as the context it would install: `none`
when the record is missing or deserialization fails (the Python method then
returns `False` and leaves `self.context` unchanged). -/
def load_context? (s : EngineState) (execution_id : String) : Option Context :=
  match pyDictGet? s.store execution_id with
  | none => none
  | some doc => Context.from_dict doc

/-! ## ast_parser.py: Operation Records and the CodeParser -/

/-- A parsed Operation Record (one dict in the list `CodeParser.parse`
returns).  The two `undefined_*` flags model the advisory keys that
`_analyze_with_ast` may add; Python leaves the key absent instead of
storing `false`, and `op.get` treats the two the same way. -/
structure Op where
  type : String
  target : Option String
  args : Option (List (String × String))
  line_number : Nat
  undefined_variable : Bool
  undefined_param : Bool
deriving DecidableEq

/-- Regex `\w` over the ASCII range (every identifier in this development is
ASCII). -/
def isWordChar (c : Char) : Bool := c.isAlphanum || c == '_'

/-- Regex `\s` / Python `str.strip` whitespace, ASCII range. -/
def isSpaceChar (c : Char) : Bool :=
  c == ' ' || c == '\t' || c == '\n' || c == '\r' || c == '\x0b' || c == '\x0c'

/-- Python `str.strip()` on a character list. -/
def trimChars (s : List Char) : List Char :=
  ((s.dropWhile isSpaceChar).reverse.dropWhile isSpaceChar).reverse

/-- Python `str.split(sep)` for a one-character separator. -/
def splitOnChar (sep : Char) : List Char → List (List Char)
  | [] => [[]]
  | x :: xs =>
    if x == sep then [] :: splitOnChar sep xs
    else
      match splitOnChar sep xs with
      | [] => [[x]]
      | g :: gs => (x :: g) :: gs

/-- Consume an exact literal prefix, returning the remainder. -/
def expectLit : List Char → List Char → Option (List Char)
  | [], s => some s
  | _ :: _, [] => none
  | c :: cs, x :: xs => if x == c then expectLit cs xs else none

/-- Match `^(\w+)\s*=\s*user_input\(\s*\)$` (the `user_input` pattern),
returning the captured target. -/
def matchUserInput (l : List Char) : Option String :=
  let w := l.takeWhile isWordChar
  let r := l.dropWhile isWordChar
  if w.isEmpty then none
  else
    match r.dropWhile isSpaceChar with
    | '=' :: r2 =>
      match expectLit "user_input(".data (r2.dropWhile isSpaceChar) with
      | none => none
      | some r3 =>
        match r3.dropWhile isSpaceChar with
        | [')'] => some (String.mk w)
        | _ => none
    | _ => none

/-- Match `^(\w+)\s*=\s*NAME\(\s*(.*?)\s*\)$` for a fixed callee `NAME`
(the `app_operation` / `open_manus` / `summary_result` patterns), returning
the captured target and the trimmed argument capture: anchored at `$`, the
lazy group together with the surrounding `\s*` captures everything between
`NAME(` and the final `)` with outer whitespace stripped. -/
def matchAssignCall (fname : String) (l : List Char) : Option (String × String) :=
  let w := l.takeWhile isWordChar
  let r := l.dropWhile isWordChar
  if w.isEmpty then none
  else
    match r.dropWhile isSpaceChar with
    | '=' :: r2 =>
      match expectLit (fname ++ "(").data (r2.dropWhile isSpaceChar) with
      | none => none
      | some rest =>
        match rest.getLast? with
        | some c =>
          if c == ')' then some (String.mk w, String.mk (trimChars rest.dropLast))
          else none
        | none => none
    | _ => none

/-- Match `^response\(\s*(.*?)\s*\)$`, returning the trimmed argument capture. -/
def matchResponse (l : List Char) : Option String :=
  match expectLit "response(".data l with
  | none => none
  | some rest =>
    match rest.getLast? with
    | some c =>
      if c == ')' then some (String.mk (trimChars rest.dropLast))
      else none
    | none => none

/-- `CodeParser._parse_args` value dequoting: strip one matching pair of
surrounding `'` or `"` quotes. -/
def stripQuotes (v : List Char) : List Char :=
  match v with
  | [] => []
  | c :: rest =>
    if c == '\x27' && (c :: rest).getLast? == some '\x27' then rest.dropLast
    else if c == '"' && (c :: rest).getLast? == some '"' then rest.dropLast
    else c :: rest

/-- One comma-separated segment of `CodeParser._parse_args`: an `=`-free
first segment becomes the canonical `request_dict` argument, later `=`-free
segments are dropped, and `k=v` segments are split once, trimmed and
dequoted. -/
def parseArgsStep (i : Nat) (args : List (String × String)) (pair : List Char) : List (String × String) :=
  let p := trimChars pair
  if !(p.contains '=') then
    if i == 0 then pyDictSet args "request_dict" (String.mk p) else args
  else
    let key := trimChars (p.takeWhile (fun c => !(c == '=')))
    let value := trimChars ((p.dropWhile (fun c => !(c == '='))).tail)
    pyDictSet args (String.mk key) (String.mk (stripQuotes value))

/-- `CodeParser._parse_args`. -/
def parse_args (args_str : String) : List (String × String) :=
  let a := trimChars args_str.data
  if a.isEmpty then []
  else
    ((splitOnChar ',' a).foldl
      (fun acc pair => (acc.1 + 1, parseArgsStep acc.1 acc.2 pair)) (0, [])).2

/-- Try the five operation patterns in their dict order (`user_input`,
`app_operation`, `open_manus`, `summary_result`, `response`); the first
match wins.  `line_number` is filled in by `parseRegexStep`. -/
def matchLine (l : List Char) : Option Op :=
  match matchUserInput l with
  | some target =>
    some { type := "user_input", target := some target, args := none,
           line_number := 0, undefined_variable := false, undefined_param := false }
  | none =>
  match matchAssignCall "AppOperation" l with
  | some ta =>
    some { type := "app_operation", target := some ta.1, args := some (parse_args ta.2),
           line_number := 0, undefined_variable := false, undefined_param := false }
  | none =>
  match matchAssignCall "OpenManus" l with
  | some ta =>
    some { type := "open_manus", target := some ta.1, args := some (parse_args ta.2),
           line_number := 0, undefined_variable := false, undefined_param := false }
  | none =>
  match matchAssignCall "SummaryResult" l with
  | some ta =>
    some { type := "summary_result", target := some ta.1, args := some (parse_args ta.2),
           line_number := 0, undefined_variable := false, undefined_param := false }
  | none =>
  match matchResponse l with
  | some a =>
    some { type := "response", target := none, args := some (parse_args a),
           line_number := 0, undefined_variable := false, undefined_param := false }
  | none => none

/-- One iteration of the `_parse_with_regex` line loop: strip the line, skip
blank and comment lines, skip lines matching no pattern, append a record
(numbered `len(operations) + 1`) otherwise. -/
def parseRegexStep (operations : List Op) (line : List Char) : List Op :=
  let l := trimChars line
  if l.isEmpty || l.headD ' ' == '#' then operations
  else
    match matchLine l with
    | none => operations
    | some op => operations ++ [{ op with line_number := operations.length + 1 }]

/-- `CodeParser._parse_with_regex`. -/
def parseWithRegex (code : String) : List Op :=
  (splitOnChar '\n' code.data).foldl parseRegexStep []

/-- A Python identifier (ASCII range). -/
def pyIdentOk (s : List Char) : Bool :=
  match s with
  | [] => false
  | c :: rest => (c.isAlpha || c == '_') && rest.all isWordChar

/-- A call-expression shape `ident(...)` whose final character closes the
call. -/
def isCallShape (s : List Char) : Bool :=
  let w := s.takeWhile isWordChar
  let r := s.dropWhile isWordChar
  pyIdentOk w &&
    (match r with
     | '(' :: rest =>
       (match rest.getLast? with
        | some c => c == ')'
        | none => false)
     | _ => false)

/-- Modelled from the behaviour of the external CPython `ast` library used
by `CodeParser.parse`/`_analyze_with_ast`, restricted to the one-line
statement shapes this development exercises: a line is blank, a comment, an
assignment `ident = call(...)` (contributing its target to the collected
`ast.Assign` targets) or a bare call expression.  `some none` = valid line
without a target, `some (some t)` = valid assignment to `t`, `none` =
syntax error. -/
def pyLineOk? (line : List Char) : Option (Option String) :=
  let t := trimChars line
  if t.isEmpty || t.headD ' ' == '#' then some none
  else
    let left := trimChars (t.takeWhile (fun c => !(c == '=')))
    if t.contains '=' && pyIdentOk left then
      let right := trimChars ((t.dropWhile (fun c => !(c == '='))).tail)
      if isCallShape right then some (some (String.mk left)) else none
    else if isCallShape t then some none
    else none

/-- Model of `ast.parse` over a whole source text: `none` on a syntax error,
otherwise the assignment-target names collected by walking `ast.Assign`
nodes (`_analyze_with_ast`'s `variable_defs`). -/
def pyParseProgram (code : String) : Option (List String) :=
  (splitOnChar '\n' code.data).foldl
    (fun acc l =>
      match acc with
      | none => none
      | some ts =>
        match pyLineOk? l with
        | none => none
        | some none => some ts
        | some (some t) => some (ts ++ [t]))
    (some [])

/-- `CodeParser._analyze_with_ast`: flag operations whose target was never
assigned and operations whose `request_dict` argument names an unassigned
variable. -/
def analyze_with_ast (variable_defs : List String) (operations : List Op) : List Op :=
  operations.map (fun op =>
    let op1 :=
      match op.target with
      | some t => if variable_defs.contains t then op else { op with undefined_variable := true }
      | none => op
    match op1.args with
    | some args =>
      match pyDictGet? args "request_dict" with
      | some var_name =>
        if variable_defs.contains var_name then op1 else { op1 with undefined_param := true }
      | none => op1
    | none => op1)

/-- `CodeParser.parse`: regex pass, `ast.parse` (whose failure is wrapped
into the `代码解析错误` ValueError), then the AST analysis pass. -/
def CodeParser.parse (code : String) : Except String (List Op) :=
  match pyParseProgram code with
  | none => Except.error "代码解析错误: invalid syntax"
  | some variable_defs => Except.ok (analyze_with_ast variable_defs (parseWithRegex code))

/-- The indexed loop inside `CodeParser.validate_structure`, carried with
the previous operation's type (`none` at index 0): reject flagged
operations and a `user_input` immediately preceded by a `response`. -/
def vsLoop : Option String → List Op → Bool
  | _, [] => true
  | prev, op :: rest =>
    if op.undefined_variable || op.undefined_param then false
    else if (match prev with
             | some p => op.type == "user_input" && p == "response"
             | none => false) then false
    else vsLoop (some op.type) rest

/-- `CodeParser.validate_structure` after its `parse` call. -/
def validateStructureOps (operations : List Op) : Bool :=
  let has_user_input := operations.any (fun op => op.type == "user_input")
  let has_response := operations.any (fun op => op.type == "response")
  if !has_user_input || !has_response then false
  else vsLoop none operations

/-- `CodeParser.validate_structure` (the surrounding `try` turns a parse
failure into `False`). -/
def CodeParser.validate_structure (code : String) : Bool :=
  match CodeParser.parse code with
  | Except.error _ => false
  | Except.ok operations => validateStructureOps operations

/-- `CodeGenerator.generate_code`: the demo program cached for fresh runs. -/
def CodeGenerator.generate_code : String :=
  "\nrequest_dict = user_input()\nmodifid_request_dict = AppOperation(request_dict, instruction=\x27帮我到京东订单页面\x27)\nresponse(modifid_request_dict)\nrequest_dict = user_input()\nsave_pic = OpenManus(request_dict, save_pic=\x27save_pic\x27)\nmodifid_request_dict = AppOperation(request_dict, instruction=\x27帮我到淘宝订单页面\x27)\nresponse(modifid_request_dict)\nrequest_dict = user_input()\nsave_pic = OpenManus(request_dict, save_pic=\x27save_pic\x27)\nmodifid_request_dict = AppOperation(request_dict, instruction=\x27帮我到美团订单页面\x27)\nresponse(modifid_request_dict)\nrequest_dict = user_input()\nsave_pic = OpenManus(request_dict, save_pic=\x27save_pic\x27)\nsave_pic = OpenManus(request_dict, get_report=\x27get_report\x27, pic=\x27save_pic\x27)\nmodifid_request_dict = SummaryResult(request_dict)\nresponse(modifid_request_dict)\n"

/-! ## base_operation.py and operations.py: the operation handlers

Each handler is constructed as `operation_class(self.context_manager)`, so
`self.context` inside `BaseOperation` is the **ContextManager**, not the
`Context`.  `ContextManager` defines only `reset` / `save_context` /
`load_context`, so the attribute accesses `self.context.record_step` and
`self.context.record_error` in `record_success` / `handle_error` raise
`AttributeError`.  (Contrast `Response.execute`, which correctly reaches
the context through `self.context.context.get_variable`.) -/

/-- `str(e)` of the AttributeError raised by `BaseOperation.record_success`. -/
def attrNoRecordStep : String :=
  "\x27ContextManager\x27 object has no attribute \x27record_step\x27"

/-- `str(e)` of the AttributeError raised by `BaseOperation.handle_error`. -/
def attrNoRecordError : String :=
  "\x27ContextManager\x27 object has no attribute \x27record_error\x27"

/-- `BaseOperation.record_success`: the `self.context.record_step(...)` call
raises AttributeError (the ContextManager has no `record_step`) before the
result can be returned. -/
def BaseOperation.record_success (_result : JValue) (_operation_type : String) :
    Except String JValue :=
  Except.error attrNoRecordStep

/-- `BaseOperation.handle_error`: the `self.context.record_error(...)` call
raises AttributeError (the ContextManager has no `record_error`), so the
structured `{status: error, message}` dict below it is never returned. -/
def BaseOperation.handle_error (_error : String) : Except String JValue :=
  Except.error attrNoRecordError

/-- `UserInput.execute`: builds the waiting placeholder, then
`record_success`; any exception in the `try` body falls to `handle_error`. -/
def UserInput.execute (request_dict : JValue) : Except String JValue :=
  match BaseOperation.record_success
      (JValue.obj [("input", JValue.null), ("status", JValue.str "waiting"),
                   ("variable_name", request_dict)]) "user_input" with
  | Except.ok v => Except.ok v
  | Except.error e => BaseOperation.handle_error e

/-- `AppOperation.execute` (both required kwargs are present whenever this is
reached, so `validate_params` passes). -/
def AppOperation.execute (_request_dict : JValue) (instruction : JValue) :
    Except String JValue :=
  match BaseOperation.record_success
      (JValue.obj [("status", JValue.str "success"),
                   ("message", JValue.str ("已执行: " ++ pyStr instruction))])
      "app_operation" with
  | Except.ok v => Except.ok v
  | Except.error e => BaseOperation.handle_error e

/-- `OpenManus.execute`. -/
def OpenManus.execute (_request_dict : JValue) (_save_pic : JValue)
    (_get_report : JValue) (_pic : JValue) : Except String JValue :=
  match BaseOperation.record_success
      (JValue.obj [("status", JValue.str "success"), ("message", JValue.str "操作完成")])
      "open_manus" with
  | Except.ok v => Except.ok v
  | Except.error e => BaseOperation.handle_error e

/-- `SummaryResult.execute`. -/
def SummaryResult.execute (_request_dict : JValue) : Except String JValue :=
  match BaseOperation.record_success
      (JValue.obj [("status", JValue.str "success"), ("message", JValue.str "总结报告已生成")])
      "summary_result" with
  | Except.ok v => Except.ok v
  | Except.error e => BaseOperation.handle_error e

/-- `Response.execute`: fetch the variable named by `request_dict` through
`self.context.context.get_variable` (a `TypeError` for unhashable arguments
lands in `handle_error`), then `record_success`. -/
def Response.execute (c : Context) (request_dict : JValue) : Except String JValue :=
  match Context.get_variable c request_dict with
  | Except.error e => BaseOperation.handle_error e
  | Except.ok result =>
    match BaseOperation.record_success result "response" with
    | Except.ok v => Except.ok v
    | Except.error e => BaseOperation.handle_error e

/-! ## engine.py: the ExecutionEngine -/

/-- The `operation_map` keys. -/
def ExecutionEngine.operationMapHas (t : String) : Bool :=
  t == "user_input" || t == "app_operation" || t == "open_manus" ||
  t == "summary_result" || t == "response"

/-- Argument preparation in `execute_code`: every parsed argument value is a
string; values matching a bound variable name are substituted, other
strings pass through literally. -/
def ExecutionEngine.resolveArgs (op : Op) (vars : List (String × JValue)) :
    List (String × JValue) :=
  match op.args with
  | none => []
  | some argDict =>
    argDict.map (fun p =>
      (p.1,
       match pyDictGet? vars p.2 with
       | some v => v
       | none => JValue.str p.2))

/-- The keyword-argument call `operation.execute(**args)`: dispatch on the
operation type with each handler's Python signature (an unexpected or
missing keyword raises `TypeError` at the call site, before the handler's
`try`). -/
def ExecutionEngine.callOperation (opType : String) (c : Context)
    (args : List (String × JValue)) : Except String JValue :=
  if opType == "user_input" then
    if args.all (fun p => p.1 == "request_dict") then
      UserInput.execute
        (match pyDictGet? args "request_dict" with
         | some v => v
         | none => JValue.null)
    else Except.error "execute() got an unexpected keyword argument"
  else if opType == "app_operation" then
    if !(args.all (fun p => p.1 == "request_dict" || p.1 == "instruction")) then
      Except.error "execute() got an unexpected keyword argument"
    else
      match pyDictGet? args "request_dict", pyDictGet? args "instruction" with
      | some rd, some ins => AppOperation.execute rd ins
      | _, _ => Except.error "execute() missing required positional arguments"
  else if opType == "open_manus" then
    if !(args.all (fun p =>
          p.1 == "request_dict" || p.1 == "save_pic" || p.1 == "get_report" || p.1 == "pic")) then
      Except.error "execute() got an unexpected keyword argument"
    else
      match pyDictGet? args "request_dict" with
      | some rd =>
        OpenManus.execute rd
          (jGetD (args.map (fun p => (p.1, p.2))) "save_pic" JValue.null)
          (jGetD args "get_report" JValue.null)
          (jGetD args "pic" JValue.null)
      | none => Except.error "execute() missing required positional arguments"
  else if opType == "summary_result" then
    if args.all (fun p => p.1 == "request_dict") then
      match pyDictGet? args "request_dict" with
      | some rd => SummaryResult.execute rd
      | none => Except.error "execute() missing required positional arguments"
    else Except.error "execute() got an unexpected keyword argument"
  else if opType == "response" then
    if args.all (fun p => p.1 == "request_dict") then
      match pyDictGet? args "request_dict" with
      | some rd => Response.execute c rd
      | none => Except.error "execute() missing required positional arguments"
    else Except.error "execute() got an unexpected keyword argument"
  else Except.error "unknown operation"

/-- Serialize an Operation Record back to the Python dict the engine stores
in envelopes and in `last_operation`, with the source's key construction
order. -/
def Op.toJ (op : Op) : JValue :=
  JValue.obj
    ([("type", JValue.str op.type)]
      ++ (match op.target with
          | some t => [("target", JValue.str t)]
          | none => [])
      ++ (match op.args with
          | some a => [("args", JValue.obj (a.map (fun p => (p.1, JValue.str p.2))))]
          | none => [])
      ++ [("line_number", jnat op.line_number)]
      ++ (if op.undefined_variable then [("undefined_variable", JValue.bool true)] else [])
      ++ (if op.undefined_param then [("undefined_param", JValue.bool true)] else []))

/-- The `paused` envelope (returned both by the early `waiting_for_input`
check and by the `user_input` branch of the step loop). -/
def pausedEnvelope (execution_id : String) (last_operation : JValue) : JValue :=
  JValue.obj
    [("status", JValue.str "paused"), ("execution_id", JValue.str execution_id),
     ("waiting_for_input", JValue.bool true), ("last_operation", last_operation),
     ("isDone", JValue.bool false)]

/-- The envelope returned when a context already marked COMPLETED is
re-queried. -/
def completedEnvelope (execution_id : String) (c : Context) : JValue :=
  JValue.obj
    [("status", JValue.str "completed"), ("execution_id", JValue.str execution_id),
     ("total_steps", jnat c.total_steps), ("completed_steps", jnat c.current_step),
     ("error_count", jnat c.error_count),
     ("execution_history", JValue.arr c.execution_history),
     ("isDone", JValue.bool true)]

/-- The envelope returned when the step loop runs off the end of the
operation list in the current call — its status is `"success"`, not
`"completed"`. -/
def successEnvelope (execution_id : String) (c : Context) : JValue :=
  JValue.obj
    [("status", JValue.str "success"), ("execution_id", JValue.str execution_id),
     ("total_steps", jnat c.total_steps), ("completed_steps", jnat c.current_step),
     ("error_count", jnat c.error_count),
     ("execution_history", JValue.arr c.execution_history),
     ("isDone", JValue.bool true)]

/-- The `except` envelope of `execute_code` and `handle_user_input`. -/
def errorEnvelope (execution_id : String) (error : String) : JValue :=
  JValue.obj
    [("status", JValue.str "error"), ("execution_id", JValue.str execution_id),
     ("error", JValue.str error), ("isDone", JValue.bool false)]

/-- The shared `except` block of `execute_code` / `handle_user_input`:
record the error on the current context, persist, return the error
envelope. -/
def ExecutionEngine.engineExcept (execution_id : String) (msg : String)
    (s : EngineState) : JValue × EngineState :=
  let s2 := { s with context := s.context.record_error msg }
  let s3 := save_context s2 execution_id
  (errorEnvelope execution_id msg, s3)

/-- Outcome of one iteration of the `while` body in `execute_code`. -/
inductive StepOutcome where
  | raised : String → EngineState → StepOutcome
  | pausedReturn : JValue → EngineState → StepOutcome
  | stepped : EngineState → StepOutcome

/-- One iteration of the `while` body of `execute_code` on the operation at
the current step pointer: look up the handler class, resolve arguments,
enforce the `app_operation` `request_dict` requirement, call the handler,
then either pause (for `user_input`), or bind the target, advance the
pointer and persist. -/
def ExecutionEngine.stepBody (op : Op) (execution_id : String) (s : EngineState) :
    StepOutcome :=
  if !(ExecutionEngine.operationMapHas op.type) then
    StepOutcome.raised ("未知的操作类型: " ++ op.type) s
  else
    let args := ExecutionEngine.resolveArgs op s.context.«variables»
    if op.type == "app_operation" && !(pyDictHas args "request_dict") then
      StepOutcome.raised "AppOperation需要request_dict参数" s
    else
      match ExecutionEngine.callOperation op.type s.context args with
      | Except.error e => StepOutcome.raised e s
      | Except.ok result =>
        if op.type == "user_input" then
          let s2 := { s with context := s.context.set_waiting_for_input true op.toJ }
          let s3 := save_context s2 execution_id
          StepOutcome.pausedReturn (pausedEnvelope execution_id op.toJ) s3
        else
          let c1 :=
            match op.target with
            | some t => if t == "" then s.context else s.context.update_variable t result
            | none => s.context
          let c2 := { c1 with current_step := c1.current_step + 1 }
          let s3 := save_context { s with context := c2 } execution_id
          StepOutcome.stepped s3

/-- The `while self.context.current_step < len(operations)` loop of
`execute_code`, inside its `try`: the fuel argument only bounds the
recursion and never runs out when it starts at `operations.length + 1`,
because each `stepped` iteration increments the step pointer. -/
def ExecutionEngine.runLoop (fuel : Nat) (operations : List Op) (execution_id : String)
    (s : EngineState) : JValue × EngineState :=
  if s.context.current_step < operations.length then
    match fuel with
    | 0 => ExecutionEngine.engineExcept execution_id "fuel exhausted" s
    | Nat.succ fuel' =>
      let op := operations.getD s.context.current_step
        { type := "", target := none, args := none, line_number := 0,
          undefined_variable := false, undefined_param := false }
      match ExecutionEngine.stepBody op execution_id s with
      | StepOutcome.raised msg s2 => ExecutionEngine.engineExcept execution_id msg s2
      | StepOutcome.pausedReturn env s2 => (env, s2)
      | StepOutcome.stepped s2 => ExecutionEngine.runLoop fuel' operations execution_id s2
  else
    let s2 := { s with context := s.context.mark_completed }
    let s3 := save_context s2 execution_id
    (successEnvelope execution_id s3.context, s3)

/-- `ExecutionEngine.execute_code`.  The return type's `error` side models
the exceptions raised *outside* the method's `try` (a missing/empty code
cache entry, a parse failure), which propagate to the caller together with
the state mutated so far. -/
def ExecutionEngine.execute_code (execution_id? : Option String) (s : EngineState) :
    Except (String × EngineState) (JValue × EngineState) :=
  let p :=
    match execution_id? with
    | some i => (i, s)
    | none => takeFresh s
  let execution_id := p.1
  let s1 :=
    match load_context? p.2 execution_id with
    | some c => { p.2 with context := c }
    | none =>
      let q := takeFresh p.2
      { q.2 with
          context := Context.new q.1,
          code_cache := pyDictSet q.2.code_cache execution_id CodeGenerator.generate_code }
  if s1.context.waiting_for_input then
    Except.ok (pausedEnvelope execution_id s1.context.last_operation, s1)
  else if s1.context.status == ExecutionStatus.completed then
    Except.ok (completedEnvelope execution_id s1.context, s1)
  else
    match pyDictGet? s1.code_cache execution_id with
    | none => Except.error ("未找到缓存的代码", s1)
    | some code =>
      if code == "" then Except.error ("未找到缓存的代码", s1)
      else
        match CodeParser.parse code with
        | Except.error e => Except.error (e, s1)
        | Except.ok operations =>
          let s2 := { s1 with context := { s1.context with total_steps := operations.length } }
          Except.ok (ExecutionEngine.runLoop (operations.length + 1) operations execution_id s2)

/-- The `isDone` patch applied by `handle_user_input` and the endpoint. -/
def ExecutionEngine.patchIsDone (result : JValue) : JValue :=
  match result with
  | JValue.obj kvs =>
    if pyDictHas kvs "isDone" then JValue.obj kvs
    else
      let done := jIsStr (jGet (JValue.obj kvs) "status") "completed" ||
                  jIsStr (jGet (JValue.obj kvs) "status") "success"
      JValue.obj (pyDictSet kvs "isDone" (JValue.bool done))
  | _ => result

/-- The tail of `handle_user_input` after its save: call `execute_code` to
continue (a raise from it lands in `handle_user_input`'s own `except`), then
patch `isDone`. -/
def ExecutionEngine.hui_continue (execution_id : String) (s : EngineState) :
    JValue × EngineState :=
  match ExecutionEngine.execute_code (some execution_id) s with
  | Except.error es => ExecutionEngine.engineExcept execution_id es.1 es.2
  | Except.ok rs => (ExecutionEngine.patchIsDone rs.1, rs.2)

/-- `handle_user_input` from the `set_waiting_for_input(False)` call on:
clear the waiting flag, advance the step pointer by one (the suspended
`user_input` step is complete), persist, continue. -/
def ExecutionEngine.hui_after (execution_id : String) (s : EngineState) :
    JValue × EngineState :=
  let c1 := s.context.set_waiting_for_input false JValue.null
  let c2 := { c1 with current_step := c1.current_step + 1 }
  let s2 := save_context { s with context := c2 } execution_id
  ExecutionEngine.hui_continue execution_id s2

/-- `ExecutionEngine.handle_user_input`. -/
def ExecutionEngine.handle_user_input (execution_id : String)
    (input_data : List (String × JValue)) (s : EngineState) : JValue × EngineState :=
  match load_context? s execution_id with
  | none => ExecutionEngine.engineExcept execution_id "未找到执行上下文" s
  | some ctx =>
    let s1 := { s with context := ctx }
    if !ctx.waiting_for_input then
      ExecutionEngine.engineExcept execution_id "当前不在等待用户输入状态" s1
    else
      let last_op := ctx.last_operation
      if pyTruthy last_op && pyTruthy (jGet last_op "target") then
        if !(pyDictHas input_data "input") then
          ExecutionEngine.engineExcept execution_id "输入数据必须包含 \x27input\x27 字段" s1
        else
          let c := ctx.update_variable (jStrOf (jGet last_op "target")) (JValue.obj input_data)
          ExecutionEngine.hui_after execution_id { s1 with context := c }
      else ExecutionEngine.hui_after execution_id s1

/-- The envelope built by the endpoint's own `except` (no `execution_id`
key). -/
def endpointCatchEnvelope (msg : String) : JValue :=
  JValue.obj
    [("status", JValue.str "error"), ("error", JValue.str msg),
     ("isDone", JValue.bool false)]

/-- Endpoint-side handling of an `execute_code` call: a raise becomes the
catch envelope, a normal return gets the `isDone` patch. -/
def ExecutionEngine.endpointWrap
    (r : Except (String × EngineState) (JValue × EngineState)) : JValue × EngineState :=
  match r with
  | Except.error es => (endpointCatchEnvelope es.1, es.2)
  | Except.ok rs => (ExecutionEngine.patchIsDone rs.1, rs.2)

/-- The `/engine` endpoint (`engine_endpoint`): dispatch on the Python
truthiness of the request fields — a missing or empty `execution_id` starts
a fresh run, a non-empty `input_data` resumes, otherwise continue. -/
def engine_endpoint (execution_id? : Option String)
    (input_data? : Option (List (String × JValue))) (s : EngineState) :
    JValue × EngineState :=
  let idBlank :=
    match execution_id? with
    | none => true
    | some i => i == ""
  if idBlank then
    ExecutionEngine.endpointWrap (ExecutionEngine.execute_code none s)
  else
    let eid :=
      match execution_id? with
      | some i => i
      | none => ""
    let hasInput :=
      match input_data? with
      | some d => !d.isEmpty
      | none => false
    if hasInput then
      let r := ExecutionEngine.handle_user_input eid
        (match input_data? with
         | some d => d
         | none => []) s
      (ExecutionEngine.patchIsDone r.1, r.2)
    else
      ExecutionEngine.endpointWrap (ExecutionEngine.execute_code (some eid) s)

/-! ## Concrete engine states used by witnesses and counterexamples

Each state models one reachable situation of the deployed system: the
`store` holds persisted run records (written by `save_context`, or present
on disk from an earlier process: `load_context` reads whatever document the
file holds), `context` is the ContextManager's current in-memory context
(a fresh one at process start), and `code_cache` holds the per-run cached
source. -/

/-- A two-step program: one input operation followed by a respond. -/
def progInputRespond : String := "x = user_input()\nresponse(x)"

/-- State with a freshly created running run `e1` over `progInputRespond`,
about to execute the `user_input` operation at index 0. -/
def stateE1 : EngineState :=
  { store := [("e1", (Context.new "e1").to_dict)]
    context := Context.new "boot"
    code_cache := [("e1", progInputRespond)]
    fresh := [] }

/-- The pending `user_input` Operation Record (target `x`) as stored in a
suspended run's `last_operation`. -/
def pendingInputOp : JValue :=
  JValue.obj
    [("type", JValue.str "user_input"), ("target", JValue.str "x"),
     ("line_number", jnat 1)]

/-- A suspended context for run `e2`: waiting at step 0 for the input that
will be bound to `x`. -/
def ctxE2 : Context :=
  { Context.new "e2" with
      waiting_for_input := true, status := ExecutionStatus.paused,
      last_operation := pendingInputOp, total_steps := 2 }

/-- State with the suspended run `e2` over `progInputRespond`. -/
def stateE2 : EngineState :=
  { store := [("e2", ctxE2.to_dict)]
    context := Context.new "boot"
    code_cache := [("e2", progInputRespond)]
    fresh := [] }

/-- State with no persisted records at all (fresh process, empty store). -/
def stateE4 : EngineState :=
  { store := []
    context := Context.new "boot"
    code_cache := []
    fresh := [] }

/-- A running context for run `e5` with `v` bound to the plain string
`"hello"`. -/
def ctxE5 : Context :=
  { Context.new "e5" with «variables» := [("v", JValue.str "hello")], total_steps := 1 }

/-- State with run `e5` about to execute `response(v)` while `v` is bound to
`"hello"`. -/
def stateE5 : EngineState :=
  { store := [("e5", ctxE5.to_dict)]
    context := Context.new "boot"
    code_cache := [("e5", "response(v)")]
    fresh := [] }

/-- A running context for run `e7` with `v` bound to a dict value. -/
def ctxE7 : Context :=
  { Context.new "e7" with
      «variables» := [("v", JValue.obj [("k", JValue.str "1")])], total_steps := 1 }

/-- State with run `e7` about to execute `response(v)` while `v` is bound to
a dict, so the handler's `get_variable` hits a TypeError internally. -/
def stateE7 : EngineState :=
  { store := [("e7", ctxE7.to_dict)]
    context := Context.new "boot"
    code_cache := [("e7", "response(v)")]
    fresh := [] }

/-- State with a running run `e8` whose cached source contains only a
comment line, so its operation list is empty and the current call finishes
all (zero) remaining steps. -/
def stateE8 : EngineState :=
  { store := [("e8", (Context.new "e8").to_dict)]
    context := Context.new "boot"
    code_cache := [("e8", "#")]
    fresh := [] }

/-- A suspended context for run `ea` (same shape as `ctxE2`). -/
def ctxEA : Context :=
  { Context.new "ea" with
      waiting_for_input := true, status := ExecutionStatus.paused,
      last_operation := pendingInputOp, total_steps := 2 }

/-- State with the suspended run `ea`, used for resume calls whose payload
lacks the fixed `input` key. -/
def stateEA : EngineState :=
  { store := [("ea", ctxEA.to_dict)]
    context := Context.new "boot"
    code_cache := [("ea", progInputRespond)]
    fresh := [] }

/-- The five-kind five-line program whose `response` argument names a
variable never assigned. -/
def progFiveKinds : String :=
  "a = user_input()\nb = AppOperation(a, instruction=\x27go\x27)\nc = OpenManus(a)\nd = SummaryResult(a)\nresponse(zzz)"

/-! ## Spec-side definitions

These follow the wording of the spec/claims (not the source); they exist to
be compared with the source-derived definitions above. -/

/-- Spec wording: the operation list contains at least one `input` operation. -/
def specHasInput (operations : List Op) : Bool :=
  operations.any (fun op => op.type == "user_input")

/-- Spec wording: the operation list contains at least one `respond` operation. -/
def specHasRespond (operations : List Op) : Bool :=
  operations.any (fun op => op.type == "response")

/-- Spec wording: no `input` operation is immediately preceded by a
`respond` operation in sequence order. -/
def specNoRespondThenInput : List Op → Bool
  | op1 :: op2 :: rest =>
    !(op2.type == "user_input" && op1.type == "response") &&
      specNoRespondThenInput (op2 :: rest)
  | _ => true

/-- No operation carries an unresolved-variable advisory flag (condition (b)
of the spec's `validate_structure` description, omitted by the claim's iff). -/
def specNoUndefinedFlags (operations : List Op) : Bool :=
  operations.all (fun op => !(op.undefined_variable || op.undefined_param))

/-- The envelope statuses the engine can actually produce (the spec's set
has `created` instead of `success`). -/
def envStatusOk (v : JValue) : Bool :=
  match jGet v "status" with
  | JValue.str st => st == "paused" || st == "completed" || st == "success" || st == "error"
  | _ => false

/-! ## Helper lemmas -/

theorem pyDictGet?_set_same {α : Type} (d : List (String × α)) (k : String) (v : α) :
    pyDictGet? (pyDictSet d k v) k = some v := by
  induction d with
  | nil => simp [pyDictSet, pyDictGet?]
  | cons p rest ih =>
    by_cases h : p.1 == k
    · simp [pyDictSet, pyDictGet?, h]
    · simp only [pyDictSet, pyDictGet?, h, if_false, Bool.false_eq_true, ite_false]
      exact ih

theorem pyDictGet?_set_ne {α : Type} (d : List (String × α)) (k k2 : String) (v : α)
    (h : (k == k2) = false) :
    pyDictGet? (pyDictSet d k v) k2 = pyDictGet? d k2 := by
  induction d with
  | nil => simp [pyDictSet, pyDictGet?, h]
  | cons p rest ih =>
    by_cases hp : p.1 == k
    · have hpk : p.1 = k := by simpa using hp
      simp [pyDictSet, pyDictGet?, hp, h, hpk]
    · simp only [pyDictSet, pyDictGet?, hp, Bool.false_eq_true, ite_false]
      by_cases hp2 : p.1 == k2
      · simp [pyDictGet?, hp2]
      · simp [pyDictGet?, hp2, ih]

/-- `from_dict` inverts `to_dict` on every context. -/
theorem from_dict_to_dict (c : Context) : Context.from_dict c.to_dict = some c := by
  cases c with
  | mk eid vars step total st ec hist wfi lastop done => cases st <;> rfl

/-- The `validate_structure` loop carried from a previous operation checks
exactly: no flagged operation in the tail, and no respond-then-input pair
inside `op :: rest`. -/
theorem vsLoop_some_eq (rest : List Op) :
    ∀ op : Op, vsLoop (some op.type) rest =
      (specNoUndefinedFlags rest && specNoRespondThenInput (op :: rest)) := by
  induction rest with
  | nil => intro op; simp [vsLoop, specNoUndefinedFlags, specNoRespondThenInput]
  | cons op2 rest2 ih =>
    intro op
    by_cases hf : (op2.undefined_variable || op2.undefined_param)
    · rw [show vsLoop (some op.type) (op2 :: rest2) = false from by simp [vsLoop, hf]]
      rw [show specNoUndefinedFlags (op2 :: rest2) = false from by
        simp only [specNoUndefinedFlags, List.all_cons, hf, Bool.not_true, Bool.false_and]]
      simp
    · have hf2 : (op2.undefined_variable || op2.undefined_param) = false := by
        simpa using hf
      by_cases hp : (op2.type == "user_input" && op.type == "response")
      · rw [show vsLoop (some op.type) (op2 :: rest2) = false from by simp [vsLoop, hf2, hp]]
        rw [show specNoRespondThenInput (op :: op2 :: rest2) = false from by
          simp only [specNoRespondThenInput, hp, Bool.not_true, Bool.false_and]]
        simp
      · have hp2 : (op2.type == "user_input" && op.type == "response") = false := by
          simpa using hp
        rw [show vsLoop (some op.type) (op2 :: rest2) = vsLoop (some op2.type) rest2 from by
          simp [vsLoop, hf2, hp2]]
        rw [ih op2]
        rw [show specNoUndefinedFlags (op2 :: rest2) =
            ((!(op2.undefined_variable || op2.undefined_param)) && specNoUndefinedFlags rest2) from by
          simp only [specNoUndefinedFlags, List.all_cons]]
        rw [show specNoRespondThenInput (op :: op2 :: rest2) =
            ((!(op2.type == "user_input" && op.type == "response")) &&
              specNoRespondThenInput (op2 :: rest2)) from rfl]
        rw [hf2, hp2]
        simp

theorem envStatusOk_paused (execution_id : String) (lo : JValue) :
    envStatusOk (pausedEnvelope execution_id lo) = true := rfl

theorem envStatusOk_completed (execution_id : String) (c : Context) :
    envStatusOk (completedEnvelope execution_id c) = true := rfl

theorem envStatusOk_success (execution_id : String) (c : Context) :
    envStatusOk (successEnvelope execution_id c) = true := rfl

theorem envStatusOk_error (execution_id : String) (msg : String) :
    envStatusOk (errorEnvelope execution_id msg) = true := rfl

theorem envStatusOk_endpointCatch (msg : String) :
    envStatusOk (endpointCatchEnvelope msg) = true := rfl

theorem envStatusOk_engineExcept (execution_id : String) (msg : String) (s : EngineState) :
    envStatusOk (ExecutionEngine.engineExcept execution_id msg s).1 = true := rfl

theorem jGet_obj_set_status (kvs : List (String × JValue)) (v : JValue) :
    jGet (JValue.obj (pyDictSet kvs "isDone" v)) "status" = jGet (JValue.obj kvs) "status" := by
  simp only [jGet]
  rw [pyDictGet?_set_ne _ _ _ _ (by decide)]

theorem envStatusOk_patch (r : JValue) :
    envStatusOk (ExecutionEngine.patchIsDone r) = envStatusOk r := by
  cases r with
  | obj kvs =>
    by_cases h : pyDictHas kvs "isDone"
    · simp [ExecutionEngine.patchIsDone, h]
    · simp only [ExecutionEngine.patchIsDone, h, Bool.false_eq_true, ite_false, envStatusOk,
        jGet_obj_set_status]
  | null => rfl
  | bool b => rfl
  | num n => rfl
  | str t => rfl
  | arr xs => rfl

theorem stepBody_paused_shape (op : Op) (execution_id : String) (s : EngineState)
    (env : JValue) (s2 : EngineState)
    (h : ExecutionEngine.stepBody op execution_id s = StepOutcome.pausedReturn env s2) :
    env = pausedEnvelope execution_id op.toJ := by
  simp only [ExecutionEngine.stepBody] at h
  split at h
  · simp at h
  · split at h
    · simp at h
    · split at h
      · simp at h
      · split at h
        · injection h with h1 _
          exact h1.symm
        · simp at h

theorem runLoop_status_ok (operations : List Op) (execution_id : String) :
    ∀ (fuel : Nat) (s : EngineState),
      envStatusOk (ExecutionEngine.runLoop fuel operations execution_id s).1 = true := by
  intro fuel
  induction fuel with
  | zero =>
    intro s
    unfold ExecutionEngine.runLoop
    by_cases h : s.context.current_step < operations.length
    · simp only [h, if_true]
      exact envStatusOk_engineExcept _ _ _
    · simp only [h, if_false]
      exact envStatusOk_success _ _
  | succ n ih =>
    intro s
    unfold ExecutionEngine.runLoop
    by_cases h : s.context.current_step < operations.length
    · simp only [h, if_true]
      cases hsb : ExecutionEngine.stepBody
          (operations.getD s.context.current_step
            { type := "", target := none, args := none, line_number := 0,
              undefined_variable := false, undefined_param := false })
          execution_id s with
      | raised msg s2 => exact envStatusOk_engineExcept _ _ _
      | pausedReturn env s2 =>
        rw [stepBody_paused_shape _ _ _ _ _ hsb]
        exact envStatusOk_paused _ _
      | stepped s2 => exact ih s2
    · simp only [h, if_false]
      exact envStatusOk_success _ _

theorem execute_code_status_ok (execution_id? : Option String) (s : EngineState)
    (r : JValue × EngineState)
    (h : ExecutionEngine.execute_code execution_id? s = Except.ok r) :
    envStatusOk r.1 = true := by
  simp only [ExecutionEngine.execute_code] at h
  split at h
  · injection h with h1
    subst h1
    exact envStatusOk_paused _ _
  · split at h
    · injection h with h1
      subst h1
      exact envStatusOk_completed _ _
    · split at h
      · simp at h
      · split at h
        · simp at h
        · split at h
          · simp at h
          · injection h with h1
            subst h1
            exact runLoop_status_ok _ _ _ _

theorem hui_continue_status_ok (execution_id : String) (s : EngineState) :
    envStatusOk (ExecutionEngine.hui_continue execution_id s).1 = true := by
  unfold ExecutionEngine.hui_continue
  cases h : ExecutionEngine.execute_code (some execution_id) s with
  | error es => exact envStatusOk_engineExcept _ _ _
  | ok rs =>
    show envStatusOk (ExecutionEngine.patchIsDone rs.1, rs.2).1 = true
    rw [show (ExecutionEngine.patchIsDone rs.1, rs.2).1 = ExecutionEngine.patchIsDone rs.1 from rfl]
    rw [envStatusOk_patch]
    exact execute_code_status_ok _ _ _ h

theorem hui_after_status_ok (execution_id : String) (s : EngineState) :
    envStatusOk (ExecutionEngine.hui_after execution_id s).1 = true := by
  unfold ExecutionEngine.hui_after
  exact hui_continue_status_ok _ _

theorem handle_user_input_status_ok (execution_id : String)
    (input_data : List (String × JValue)) (s : EngineState) :
    envStatusOk (ExecutionEngine.handle_user_input execution_id input_data s).1 = true := by
  unfold ExecutionEngine.handle_user_input
  cases hl : load_context? s execution_id with
  | none => exact envStatusOk_engineExcept _ _ _
  | some ctx =>
    dsimp only
    by_cases hw : (!ctx.waiting_for_input) = true
    · rw [if_pos hw]
      exact envStatusOk_engineExcept _ _ _
    · rw [if_neg hw]
      by_cases ht : (pyTruthy ctx.last_operation && pyTruthy (jGet ctx.last_operation "target")) = true
      · rw [if_pos ht]
        by_cases hk : (!pyDictHas input_data "input") = true
        · rw [if_pos hk]
          exact envStatusOk_engineExcept _ _ _
        · rw [if_neg hk]
          exact hui_after_status_ok _ _
      · rw [if_neg ht]
        exact hui_after_status_ok _ _

theorem endpointWrap_status_ok (r : Except (String × EngineState) (JValue × EngineState))
    (hok : ∀ rs, r = Except.ok rs → envStatusOk rs.1 = true) :
    envStatusOk (ExecutionEngine.endpointWrap r).1 = true := by
  cases r with
  | error es => exact envStatusOk_endpointCatch _
  | ok rs =>
    show envStatusOk (ExecutionEngine.patchIsDone rs.1, rs.2).1 = true
    rw [show (ExecutionEngine.patchIsDone rs.1, rs.2).1 = ExecutionEngine.patchIsDone rs.1 from rfl]
    rw [envStatusOk_patch]
    exact hok rs rfl

/-! ## Claim theorems -/

/-- C1 (code_bug evidence): a run whose cached program is
`x = user_input()` / `response(x)` and whose step pointer is at the input
operation's index 0 does not suspend when `execute_code` reaches that
operation: the handler's record-keeping accesses a method the
ContextManager does not have, the AttributeError is caught by the engine,
and the run ends with status `error`, step pointer still 0 and
`waiting_for_input` false — the claimed pause-then-advance protocol never
begins. -/
theorem run_reaching_input_op_errors_instead_of_pausing :
    CodeParser.parse progInputRespond =
      Except.ok
        [{ type := "user_input", target := some "x", args := none, line_number := 1,
           undefined_variable := false, undefined_param := false },
         { type := "response", target := none, args := some [("request_dict", "x")],
           line_number := 2, undefined_variable := false, undefined_param := false }] ∧
    (match ExecutionEngine.execute_code (some "e1") stateE1 with
     | Except.ok rs =>
         jGet rs.1 "status" = JValue.str "error" ∧
         jGet rs.1 "error" = JValue.str attrNoRecordError ∧
         rs.2.context.current_step = 0 ∧
         rs.2.context.waiting_for_input = false ∧
         rs.2.context.status = ExecutionStatus.error ∧
         rs.2.context.error_count = 1
     | Except.error _ => False) :=
  ⟨rfl, rfl, rfl, rfl, rfl, rfl, rfl⟩

/-- C2 counterexample: resuming the suspended run `e2` (pending operation
with target `x`) with payload carrying `"hello"` under the fixed key
`input` binds the ENTIRE payload object to `x`, which is not the supplied
value `"hello"`. -/
theorem supply_input_binds_whole_payload :
    pyDictGet?
        (ExecutionEngine.handle_user_input "e2" [("input", JValue.str "hello")]
          stateE2).2.context.«variables» "x" =
      some (JValue.obj [("input", JValue.str "hello")]) ∧
    JValue.obj [("input", JValue.str "hello")] ≠ JValue.str "hello" :=
  ⟨rfl, fun h => JValue.noConfusion h⟩

/-- C2 (amended): for every suspended run whose pending operation has a
non-empty target `t`, a `supply_input` call whose payload contains the
fixed key `input` binds the whole payload object to `t`, clears
`waiting_for_input`, advances the step pointer by exactly one, persists
exactly that context, and continues execution by re-entering the run loop
(`hui_continue` is the engine's recursive `execute_code` call plus the
`isDone` patch). -/
theorem supply_input_success_contract (s : EngineState) (execution_id : String)
    (input_data : List (String × JValue)) (ctx : Context) (t : String)
    (hload : load_context? s execution_id = some ctx)
    (hwait : ctx.waiting_for_input = true)
    (hlast : pyTruthy ctx.last_operation = true)
    (htgt : jGet ctx.last_operation "target" = JValue.str t)
    (ht : (t == "") = false)
    (hkey : pyDictHas input_data "input" = true) :
    (let c2 :=
      { (ctx.update_variable t (JValue.obj input_data)).set_waiting_for_input false JValue.null with
        current_step := ctx.current_step + 1 }
     ExecutionEngine.handle_user_input execution_id input_data s =
       ExecutionEngine.hui_continue execution_id
         { s with context := c2, store := pyDictSet s.store execution_id c2.to_dict } ∧
     c2.«variables» = pyDictSet ctx.«variables» t (JValue.obj input_data) ∧
     c2.waiting_for_input = false ∧
     c2.current_step = ctx.current_step + 1) := by
  dsimp only
  refine ⟨?_, ?_, ?_, ?_⟩
  · unfold ExecutionEngine.handle_user_input
    rw [hload]
    dsimp only
    rw [if_neg (by rw [hwait]; simp)]
    rw [if_pos (by rw [hlast, htgt]; simp [pyTruthy, ht])]
    rw [if_neg (by rw [hkey]; simp)]
    rw [htgt]
    unfold ExecutionEngine.hui_after
    rfl
  · rfl
  · rfl
  · rfl

/-- Witness for the amended C2 contract at the concrete suspended run `e2`
and payload carrying `"hello"` under `input`. -/
theorem supply_input_success_contract_witness :
    load_context? stateE2 "e2" = some ctxE2 ∧
    ctxE2.waiting_for_input = true ∧
    pyTruthy ctxE2.last_operation = true ∧
    jGet ctxE2.last_operation "target" = JValue.str "x" ∧
    (("x" : String) == "") = false ∧
    pyDictHas [("input", JValue.str "hello")] "input" = true ∧
    (let c2 :=
      { (ctxE2.update_variable "x" (JValue.obj [("input", JValue.str "hello")])).set_waiting_for_input
          false JValue.null with
        current_step := ctxE2.current_step + 1 }
     ExecutionEngine.handle_user_input "e2" [("input", JValue.str "hello")] stateE2 =
       ExecutionEngine.hui_continue "e2"
         { stateE2 with context := c2, store := pyDictSet stateE2.store "e2" c2.to_dict } ∧
     c2.«variables» = pyDictSet ctxE2.«variables» "x" (JValue.obj [("input", JValue.str "hello")]) ∧
     c2.waiting_for_input = false ∧
     c2.current_step = ctxE2.current_step + 1) :=
  ⟨rfl, rfl, rfl, rfl, rfl, rfl,
   supply_input_success_contract stateE2 "e2" [("input", JValue.str "hello")] ctxE2 "x"
     rfl rfl rfl rfl rfl rfl⟩

/-- C3 counterexample: the line `y = foo(1)` is non-blank, is not a
comment and matches none of the five operation patterns, yet
`CodeParser.parse` of a source consisting of that line succeeds (returning
an empty operation list) instead of failing with a MalformedLine-class
error — so a run over such source can start. -/
theorem parse_accepts_unmatched_line :
    (trimChars "y = foo(1)".data).isEmpty = false ∧
    ((trimChars "y = foo(1)".data).headD ' ' == '#') = false ∧
    matchLine (trimChars "y = foo(1)".data) = none ∧
    CodeParser.parse "y = foo(1)" = Except.ok [] :=
  ⟨rfl, rfl, rfl, rfl⟩

/-- C3 (amended): `CodeParser.parse` fails exactly when the host-language
(Python `ast`) parse of the source fails; a non-blank, non-comment line
that matches none of the five recognized forms does not make `parse` fail —
the regex pass silently skips it, contributing no operation. -/
theorem parse_failure_policy (code : String) (operations : List Op) (line : List Char)
    (hblank : (trimChars line).isEmpty = false)
    (hcomment : ((trimChars line).headD ' ' == '#') = false)
    (hnomatch : matchLine (trimChars line) = none) :
    ((CodeParser.parse code).isOk = (pyParseProgram code).isSome) ∧
    parseRegexStep operations line = operations := by
  constructor
  · unfold CodeParser.parse
    cases pyParseProgram code <;> rfl
  · simp [parseRegexStep, hblank, hcomment, hnomatch]

/-- Witness for the amended C3 policy at the concrete line `y = foo(1)`. -/
theorem parse_failure_policy_witness :
    (trimChars "y = foo(1)".data).isEmpty = false ∧
    ((trimChars "y = foo(1)".data).headD ' ' == '#') = false ∧
    matchLine (trimChars "y = foo(1)".data) = none ∧
    (((CodeParser.parse "y = foo(1)").isOk = (pyParseProgram "y = foo(1)").isSome) ∧
     parseRegexStep [] "y = foo(1)".data = []) :=
  ⟨rfl, rfl, rfl, parse_failure_policy "y = foo(1)" [] "y = foo(1)".data rfl rfl rfl⟩

/-- C4 counterexample: resuming with the unknown identifier `nope` on an
empty store returns an error envelope, but also CREATES a persisted record
under `nope` (the except-branch saves the current in-memory context there),
so the set of persisted records is not unchanged. -/
theorem resume_unknown_id_creates_record :
    pyDictGet? stateE4.store "nope" = none ∧
    jGet (ExecutionEngine.handle_user_input "nope" [("input", JValue.str "v")] stateE4).1
        "status" = JValue.str "error" ∧
    (pyDictGet?
        (ExecutionEngine.handle_user_input "nope" [("input", JValue.str "v")] stateE4).2.store
        "nope").isSome = true :=
  ⟨rfl, rfl, rfl⟩

/-- C4 (amended): for every state whose store has no record under the given
identifier, `handle_user_input` returns the NoSuchRun-style error envelope
— but its except-branch records the error on the current in-memory context
and persists that context under the unknown identifier, creating a new
record for it. -/
theorem resume_unknown_id_contract (s : EngineState) (execution_id : String)
    (input_data : List (String × JValue))
    (hload : load_context? s execution_id = none) :
    ExecutionEngine.handle_user_input execution_id input_data s =
      (errorEnvelope execution_id "未找到执行上下文",
       save_context { s with context := s.context.record_error "未找到执行上下文" }
         execution_id) ∧
    (pyDictGet?
        (ExecutionEngine.handle_user_input execution_id input_data s).2.store
        execution_id).isSome = true := by
  have h1 : ExecutionEngine.handle_user_input execution_id input_data s =
      (errorEnvelope execution_id "未找到执行上下文",
       save_context { s with context := s.context.record_error "未找到执行上下文" }
         execution_id) := by
    unfold ExecutionEngine.handle_user_input
    rw [hload]
    rfl
  refine ⟨h1, ?_⟩
  rw [h1]
  unfold save_context
  dsimp only
  rw [pyDictGet?_set_same]
  rfl

/-- Witness for the amended C4 contract at the empty-store state and the
identifier `nope`. -/
theorem resume_unknown_id_contract_witness :
    load_context? stateE4 "nope" = none ∧
    (ExecutionEngine.handle_user_input "nope" [("input", JValue.str "v")] stateE4 =
      (errorEnvelope "nope" "未找到执行上下文",
       save_context { stateE4 with context := stateE4.context.record_error "未找到执行上下文" }
         "nope") ∧
     (pyDictGet?
        (ExecutionEngine.handle_user_input "nope" [("input", JValue.str "v")] stateE4).2.store
        "nope").isSome = true) :=
  ⟨rfl, resume_unknown_id_contract stateE4 "nope" [("input", JValue.str "v")] rfl⟩

/-- C5 (code_bug evidence): with `v` bound to the string `"hello"`, the
engine's argument resolution already substitutes the bound value, the
Response handler then looks `"hello"` up AGAIN as a variable name (getting
None), and its record-keeping raises AttributeError — so executing
`response(v)` ends the run in `error` and never produces the bound value as
the step's result. -/
theorem respond_step_does_not_return_bound_value :
    pyDictGet? ctxE5.«variables» "v" = some (JValue.str "hello") ∧
    (match CodeParser.parse "response(v)" with
     | Except.ok operations =>
         operations.map (fun op => ExecutionEngine.resolveArgs op ctxE5.«variables») =
           [[("request_dict", JValue.str "hello")]]
     | Except.error _ => False) ∧
    Context.get_variable ctxE5 (JValue.str "hello") = Except.ok JValue.null ∧
    Response.execute ctxE5 (JValue.str "hello") = Except.error attrNoRecordError ∧
    (match ExecutionEngine.execute_code (some "e5") stateE5 with
     | Except.ok rs =>
         jGet rs.1 "status" = JValue.str "error" ∧
         jGet rs.1 "error" = JValue.str attrNoRecordError ∧
         rs.2.context.status = ExecutionStatus.error
     | Except.error _ => False) :=
  ⟨rfl, rfl, rfl, rfl, rfl, rfl, rfl⟩

theorem vsLoop_none_eq (operations : List Op) :
    vsLoop none operations =
      (specNoUndefinedFlags operations && specNoRespondThenInput operations) := by
  cases operations with
  | nil => rfl
  | cons op rest =>
    by_cases hf : (op.undefined_variable || op.undefined_param)
    · rw [show vsLoop none (op :: rest) = false from by simp [vsLoop, hf]]
      rw [show specNoUndefinedFlags (op :: rest) = false from by
        simp only [specNoUndefinedFlags, List.all_cons, hf, Bool.not_true, Bool.false_and]]
      simp
    · have hf2 : (op.undefined_variable || op.undefined_param) = false := by simpa using hf
      rw [show vsLoop none (op :: rest) = vsLoop (some op.type) rest from by
        simp [vsLoop, hf2]]
      rw [vsLoop_some_eq rest op]
      rw [show specNoUndefinedFlags (op :: rest) =
          ((!(op.undefined_variable || op.undefined_param)) && specNoUndefinedFlags rest) from by
        simp only [specNoUndefinedFlags, List.all_cons]]
      rw [hf2]
      simp

/-- C6 (amended): for every parsed operation list, `validate_structure`
returns true exactly when there is at least one input operation, at least
one respond operation, NO operation carries an unresolved-variable advisory
flag (`undefined_variable` / `undefined_param` — the condition the claim's
iff omits), and no input operation is immediately preceded by a respond
operation. -/
theorem validate_structure_characterization (operations : List Op) :
    validateStructureOps operations =
      (specHasInput operations && specHasRespond operations &&
       specNoUndefinedFlags operations && specNoRespondThenInput operations) := by
  unfold validateStructureOps specHasInput specHasRespond
  dsimp only
  by_cases hi : (operations.any fun op => op.type == "user_input") = true
  · by_cases hr : (operations.any fun op => op.type == "response") = true
    · rw [hi, hr]
      simp only [Bool.not_true, Bool.or_self, Bool.false_eq_true, ite_false, Bool.true_and]
      exact vsLoop_none_eq operations
    · have hr2 : (operations.any fun op => op.type == "response") = false := by simpa using hr
      rw [hi, hr2]
      simp
  · have hi2 : (operations.any fun op => op.type == "user_input") = false := by simpa using hi
    rw [hi2]
    simp

/-- C6 counterexample: a valid five-line program using each of the five
operation kinds once, with an input, a respond and no respond-then-input
pair, on which parse-then-validate_structure nevertheless returns false:
its `response(zzz)` argument names a variable never assigned, so the parsed
operation carries the `undefined_param` flag that the claim's iff omits. -/
theorem validate_structure_iff_fails_on_undefined_param :
    (match CodeParser.parse progFiveKinds with
     | Except.ok operations =>
         specHasInput operations = true ∧
         specHasRespond operations = true ∧
         specNoRespondThenInput operations = true ∧
         specNoUndefinedFlags operations = false
     | Except.error _ => False) ∧
    CodeParser.validate_structure progFiveKinds = false :=
  ⟨⟨rfl, rfl, rfl, rfl⟩, rfl⟩

/-- C7 (code_bug evidence): operation handlers do NOT convert internal
failures into a structured error result: `handle_error` itself raises
AttributeError (the ContextManager has no `record_error`), as does the
success path's `record_success`, so every handler failure — here a
Response handler hitting a TypeError on an unhashable argument, and a
UserInput handler on its ordinary path — raises to the engine, which
escalates the run to run-level `error` status. -/
theorem handler_internal_failure_escalates :
    BaseOperation.handle_error "x" = Except.error attrNoRecordError ∧
    Response.execute ctxE7 (JValue.obj [("k", JValue.str "1")]) =
      Except.error attrNoRecordError ∧
    UserInput.execute JValue.null = Except.error attrNoRecordError ∧
    (match ExecutionEngine.execute_code (some "e7") stateE7 with
     | Except.ok rs =>
         jGet rs.1 "status" = JValue.str "error" ∧
         rs.2.context.status = ExecutionStatus.error ∧
         rs.2.context.error_count = 1
     | Except.error _ => False) :=
  ⟨rfl, rfl, rfl, rfl, rfl, rfl⟩

/-- C8 counterexample: continuing the running run `e8`, whose cached source
parses to an empty operation list, finishes all (zero) remaining steps in
this call; the endpoint then returns status `"success"` — a value outside
the claimed set {created, paused, completed, error} — even though the run
is now marked completed. -/
theorem endpoint_returns_success_not_in_spec_set :
    jGet (engine_endpoint (some "e8") none stateE8).1 "status" = JValue.str "success" ∧
    (engine_endpoint (some "e8") none stateE8).2.context.status = ExecutionStatus.completed ∧
    ¬ ("success" ∈ (["created", "paused", "completed", "error"] : List String)) :=
  ⟨rfl, rfl, by decide⟩

/-- C8 (amended): every request to the engine endpoint returns an envelope
whose status field is one of {paused, completed, success, error}: a run
finishing all its steps within the call reports `success` (with `completed`
reserved for re-querying an already completed run), and every failure is
reported through a status of `error` in the envelope. -/
theorem engine_endpoint_status_envelope (execution_id? : Option String)
    (input_data? : Option (List (String × JValue))) (s : EngineState) :
    envStatusOk (engine_endpoint execution_id? input_data? s).1 = true := by
  unfold engine_endpoint
  dsimp only
  by_cases hb : (match execution_id? with
                 | none => true
                 | some i => i == "") = true
  · rw [if_pos hb]
    exact endpointWrap_status_ok _ (fun rs h => execute_code_status_ok _ _ _ h)
  · rw [if_neg hb]
    by_cases hi : (match input_data? with
                   | some d => !d.isEmpty
                   | none => false) = true
    · rw [if_pos hi]
      dsimp only
      rw [envStatusOk_patch]
      exact handle_user_input_status_ok _ _ _
    · rw [if_neg hi]
      exact endpointWrap_status_ok _ (fun rs h => execute_code_status_ok _ _ _ h)

/-- C9: persistence round-trip — saving any Execution Context and loading
it back under the same execution id yields exactly the original context,
field for field (execution id, variables, step pointer, total steps,
status, error count, history in order, waiting flag, pending/last
operation, done flag). -/
theorem save_then_load_roundtrip (s : EngineState) (execution_id : String) (c : Context) :
    load_context? (save_context { s with context := c } execution_id) execution_id = some c := by
  unfold load_context? save_context
  dsimp only
  rw [pyDictGet?_set_same]
  exact from_dict_to_dict c

/-- C10: resuming a suspended run (pending operation with a non-empty
target) with a payload that lacks the key `input` returns an error result
and leaves the step pointer, the variable table and the waiting flag
unchanged, while incrementing the error count by one, setting the run
status to error, appending exactly one error entry to the history, and
persisting that mutated context. -/
theorem resume_missing_input_key (s : EngineState) (execution_id : String)
    (input_data : List (String × JValue)) (ctx : Context) (t : String)
    (hload : load_context? s execution_id = some ctx)
    (hwait : ctx.waiting_for_input = true)
    (hlast : pyTruthy ctx.last_operation = true)
    (htgt : jGet ctx.last_operation "target" = JValue.str t)
    (ht : (t == "") = false)
    (hkey : pyDictHas input_data "input" = false) :
    (let r := ExecutionEngine.handle_user_input execution_id input_data s
     jGet r.1 "status" = JValue.str "error" ∧
     r.2.context.current_step = ctx.current_step ∧
     r.2.context.«variables» = ctx.«variables» ∧
     r.2.context.waiting_for_input = true ∧
     r.2.context.error_count = ctx.error_count + 1 ∧
     r.2.context.status = ExecutionStatus.error ∧
     r.2.context.execution_history =
       ctx.execution_history ++
         [JValue.obj
           [("step", jnat ctx.current_step), ("type", JValue.str "error"),
            ("message", JValue.str "输入数据必须包含 \x27input\x27 字段")]] ∧
     r.2.store = pyDictSet s.store execution_id r.2.context.to_dict) := by
  have h1 : ExecutionEngine.handle_user_input execution_id input_data s =
      ExecutionEngine.engineExcept execution_id "输入数据必须包含 \x27input\x27 字段"
        { s with context := ctx } := by
    unfold ExecutionEngine.handle_user_input
    rw [hload]
    dsimp only
    rw [if_neg (by rw [hwait]; simp)]
    rw [if_pos (by rw [hlast, htgt]; simp [pyTruthy, ht])]
    rw [if_pos (by rw [hkey]; simp)]
  dsimp only
  rw [h1]
  unfold ExecutionEngine.engineExcept save_context Context.record_error
  dsimp only
  exact ⟨rfl, rfl, rfl, hwait, rfl, rfl, rfl, rfl⟩

/-- Witness for C10 at the concrete suspended run `ea` and the payload
`{"value": "hello"}`, which lacks the key `input`. -/
theorem resume_missing_input_key_witness :
    load_context? stateEA "ea" = some ctxEA ∧
    ctxEA.waiting_for_input = true ∧
    pyTruthy ctxEA.last_operation = true ∧
    jGet ctxEA.last_operation "target" = JValue.str "x" ∧
    (("x" : String) == "") = false ∧
    pyDictHas [("value", JValue.str "hello")] "input" = false ∧
    (let r := ExecutionEngine.handle_user_input "ea" [("value", JValue.str "hello")] stateEA
     jGet r.1 "status" = JValue.str "error" ∧
     r.2.context.current_step = ctxEA.current_step ∧
     r.2.context.«variables» = ctxEA.«variables» ∧
     r.2.context.waiting_for_input = true ∧
     r.2.context.error_count = ctxEA.error_count + 1 ∧
     r.2.context.status = ExecutionStatus.error ∧
     r.2.context.execution_history =
       ctxEA.execution_history ++
         [JValue.obj
           [("step", jnat ctxEA.current_step), ("type", JValue.str "error"),
            ("message", JValue.str "输入数据必须包含 \x27input\x27 字段")]] ∧
     r.2.store = pyDictSet stateEA.store "ea" r.2.context.to_dict) :=
  ⟨rfl, rfl, rfl, rfl, rfl, rfl,
   resume_missing_input_key stateEA "ea" [("value", JValue.str "hello")] ctxEA "x"
     rfl rfl rfl rfl rfl rfl⟩
